import Mathlib

/-!
Shallow embedding of src/api/ocr-summarize.ts: a single HTTP handler that
reads a fileURL parameter, fetches the remote file, extracts PDF text and
answers with a JSON envelope.  External collaborators (node-fetch, pdf-parse)
are modelled as oracle functions in an environment record; JavaScript
truthiness of the fileURL expression is modelled explicitly.
-/

namespace OcrSummarize

/-- A JavaScript value as it can flow through the expression
`(req.query.fileURL as string) || (req.body && req.body.fileURL)`:
either undefined (also covering null / absent body) or a string. -/
inductive JSVal where
  | undef : JSVal
  | str : String → JSVal
deriving DecidableEq, Repr

/-- JavaScript truthiness for such a value: a string is truthy iff nonempty. -/
def JSVal.truthy : JSVal → Bool
  | .undef => false
  | .str s => s ≠ ""

/-- JavaScript `a || b`: the left operand if truthy, otherwise the right. -/
def JSVal.jsOr (a b : JSVal) : JSVal := if a.truthy then a else b

/-- Lift an optional string (absent object field) to a JS value. -/
def JSVal.ofOption : Option String → JSVal
  | none => .undef
  | some s => .str s

/-- The parts of the incoming request the handler reads:
`req.query.fileURL`, whether `req.body` is truthy, and `req.body.fileURL`. -/
structure Request where
  queryFileURL : Option String
  bodyPresent : Bool
  bodyFileURL : Option String
deriving DecidableEq, Repr

/-- A thrown JavaScript fault: its optional `.message` property and the
generic stringification `String(err)`. -/
structure Exn where
  message : Option String
  str : String
deriving DecidableEq, Repr

/-- The error text the catch block produces: `err.message || String(err)` -
the message when it is present and truthy (nonempty), otherwise `String(err)`. -/
def Exn.render (e : Exn) : String :=
  match e.message with
  | some m => if m = "" then e.str else m
  | none => e.str

/-- The fetch response as the handler consumes it: its HTTP status, and the
result of buffering its body (`response.arrayBuffer()`), which may throw. -/
structure FetchResponse where
  status : Nat
  bytes : Except Exn (List Nat)

/-- node-fetch `response.ok`: true iff the status is in [200, 300). -/
def FetchResponse.respOk (r : FetchResponse) : Bool :=
  decide (200 ≤ r.status) && decide (r.status < 300)

/-- The external collaborators: the HTTP client (`fetch`, which may throw or
yield a response) and the PDF parser (`pdfParse`, which may throw or yield a
data object whose optional `text` field is recorded; `none` models a missing
text field or a null data object, matching `data?.text`). -/
structure Env where
  fetch : String → Except Exn FetchResponse
  parse : List Nat → Except Exn (Option String)

/-- One JSON response as written by `res.status(...).json({...})`:
the HTTP status, the `ok` flag, and the optional `text` and `error` fields. -/
structure HttpResponse where
  status : Nat
  ok : Bool
  text : Option String
  error : Option String
deriving DecidableEq, Repr

/-- The handler outcome together with whether an outbound fetch was issued. -/
structure HandlerResult where
  response : HttpResponse
  fetchAttempted : Bool

/-- The value of the JS expression
`(req.query.fileURL as string) || (req.body && req.body.fileURL)`. -/
def fileURLVal (req : Request) : JSVal :=
  JSVal.jsOr (JSVal.ofOption req.queryFileURL)
    (if req.bodyPresent then JSVal.ofOption req.bodyFileURL else JSVal.undef)

/-- The fileURL actually used, `none` when `!fileURL` rejects it. -/
def usedFileURL (req : Request) : Option String :=
  match fileURLVal req with
  | JSVal.undef => none
  | JSVal.str s => if s = "" then none else some s

/-- Response of the missing-parameter branch. -/
def missingResponse : HttpResponse :=
  { status := 400, ok := false, text := none, error := some "Missing fileURL parameter" }

/-- Response of the non-ok-fetch branch. -/
def unfetchableResponse : HttpResponse :=
  { status := 400, ok := false, text := none, error := some "Unable to fetch file from provided URL" }

/-- Response of the catch block for a thrown fault. -/
def serverErrorResponse (e : Exn) : HttpResponse :=
  { status := 500, ok := false, text := none, error := some e.render }

/-- The success response carrying the extracted text. -/
def successResponse (t : String) : HttpResponse :=
  { status := 200, ok := true, text := some t, error := none }

/-- `data?.text?.trim() ?? ""`: trim the text field when present, else empty. -/
def extractedText : Option String → String
  | some s => s.trim
  | none => ""

/-- The part of the handler from `await fetch(fileURL)` onwards: check
`response.ok`, buffer the body, parse the PDF, trim the text.  The try/catch
is modelled by the `Except` results of the collaborator calls and of body
buffering; nothing else in the body can throw. -/
def afterFetch (env : Env) (u : String) : HttpResponse :=
  match env.fetch u with
  | Except.error e => serverErrorResponse e
  | Except.ok resp =>
    if resp.respOk = false then unfetchableResponse
    else
      match resp.bytes with
      | Except.error e => serverErrorResponse e
      | Except.ok buf =>
        match env.parse buf with
        | Except.error e => serverErrorResponse e
        | Except.ok t => successResponse (extractedText t)

/-- The handler body of src/api/ocr-summarize.ts, instrumented with whether
the outbound fetch was reached. -/
def handlerRun (env : Env) (req : Request) : HandlerResult :=
  match fileURLVal req with
  | JSVal.undef => ⟨missingResponse, false⟩
  | JSVal.str s =>
    if s = "" then ⟨missingResponse, false⟩
    else ⟨afterFetch env s, true⟩

/-- The observable response of one handler invocation. -/
def handler (env : Env) (req : Request) : HttpResponse :=
  (handlerRun env req).response

/-! Concrete fixtures used by the witness and counterexample theorems. -/

/-- A request supplying the fileURL only in the query string. -/
def reqW : Request := ⟨some "http://x/doc.pdf", false, none⟩

/-- A request supplying no fileURL anywhere. -/
def reqNone : Request := ⟨none, false, none⟩

/-- A request whose fileURL is the empty string in both sources. -/
def reqEmpty : Request := ⟨some "", true, some ""⟩

/-- A request with an empty query fileURL and a nonempty body fileURL. -/
def reqC7 : Request := ⟨some "", true, some "http://body/doc.pdf"⟩

/-- The byte listing standing for a small valid PDF. -/
def pdfBytes : List Nat := [37, 80, 68, 70]

/-- An environment where fetching reqW's URL yields a 200 response whose
bytes parse to text with surrounding whitespace, and any other URL fails at
the network level. -/
def envW : Env :=
  { fetch := fun u =>
      if u = "http://x/doc.pdf" then Except.ok ⟨200, Except.ok pdfBytes⟩
      else Except.error ⟨some "getaddrinfo ENOTFOUND", "FetchError"⟩,
    parse := fun b =>
      if b = pdfBytes then Except.ok (some "  Hello World  ")
      else Except.error ⟨some "Invalid PDF structure", "Error: Invalid PDF structure"⟩ }

/-- An environment like envW except that every fetch yields a 200 response
whose body is a single byte that is not a PDF, so parsing throws. -/
def envW2 : Env :=
  { fetch := fun _ => Except.ok ⟨200, Except.ok [0]⟩,
    parse := fun b =>
      if b = pdfBytes then Except.ok (some "  Hello World  ")
      else Except.error ⟨some "Invalid PDF structure", "Error: Invalid PDF structure"⟩ }

/-- An environment whose origin answers 404 to every fetch. -/
def env404 : Env :=
  { fetch := fun _ => Except.ok ⟨404, Except.ok []⟩,
    parse := fun _ => Except.error ⟨some "Invalid PDF structure", "Error"⟩ }

/-- An environment where every fetch throws, as a DNS resolution failure
does in node-fetch. -/
def envDNS : Env :=
  { fetch := fun _ =>
      Except.error ⟨some "getaddrinfo ENOTFOUND example.invalid", "FetchError: getaddrinfo ENOTFOUND example.invalid"⟩,
    parse := fun _ => Except.ok (some "unused") }

/-- An environment where the fetch succeeds and the parsed data object has
no text field. -/
def envNoText : Env :=
  { fetch := fun _ => Except.ok ⟨200, Except.ok pdfBytes⟩,
    parse := fun _ => Except.ok none }

/-- An environment where only the body URL of reqC7 is fetchable and its
bytes parse to the text "body". -/
def envBody : Env :=
  { fetch := fun u =>
      if u = "http://body/doc.pdf" then Except.ok ⟨200, Except.ok pdfBytes⟩
      else Except.error ⟨some "only the body URL resolves", "FetchError"⟩,
    parse := fun _ => Except.ok (some "body") }

/-! Helper lemmas shared by the claim theorems. -/

theorem usedFileURL_eq_some {req : Request} {u : String} (h : usedFileURL req = some u) :
    fileURLVal req = JSVal.str u ∧ u ≠ "" := by
  unfold usedFileURL at h
  cases hv : fileURLVal req with
  | undef => rw [hv] at h; simp at h
  | str s =>
    rw [hv] at h
    by_cases hs : s = ""
    · simp [hs] at h
    · simp [hs] at h
      exact ⟨by rw [h], by rw [← h]; exact hs⟩

theorem handlerRun_of_used {env : Env} {req : Request} {u : String}
    (h : usedFileURL req = some u) :
    handlerRun env req = ⟨afterFetch env u, true⟩ := by
  obtain ⟨hv, hu⟩ := usedFileURL_eq_some h
  unfold handlerRun
  rw [hv]
  simp [hu]

theorem handlerRun_of_missing {env : Env} {req : Request}
    (h : usedFileURL req = none) :
    handlerRun env req = ⟨missingResponse, false⟩ := by
  unfold handlerRun
  unfold usedFileURL at h
  cases hv : fileURLVal req with
  | undef => rfl
  | str s =>
    rw [hv] at h
    by_cases hs : s = ""
    · simp [hs]
    · simp [hs] at h

/-- C1: for every request whose fetch of the fileURL returns a successful HTTP
response whose bytes parse as a valid PDF with text t, the handler responds
with status 200 and body with ok true and text equal to t with leading and
trailing whitespace removed. -/
theorem c1_valid_pdf_returns_trimmed_text (env : Env) (req : Request) (u : String)
    (resp : FetchResponse) (buf : List Nat) (t : String)
    (hu : usedFileURL req = some u)
    (hf : env.fetch u = Except.ok resp)
    (hok : resp.respOk = true)
    (hb : resp.bytes = Except.ok buf)
    (hp : env.parse buf = Except.ok (some t)) :
    handler env req = { status := 200, ok := true, text := some t.trim, error := none } := by
  unfold handler
  rw [handlerRun_of_used hu]
  unfold afterFetch
  rw [hf]
  simp [hok, hb, hp, successResponse, extractedText]

/-- Witness for C1 at a concrete request and environment. -/
theorem c1_valid_pdf_returns_trimmed_text_witness :
    usedFileURL reqW = some "http://x/doc.pdf" ∧
    envW.fetch "http://x/doc.pdf" = Except.ok ⟨200, Except.ok pdfBytes⟩ ∧
    envW.parse pdfBytes = Except.ok (some "  Hello World  ") ∧
    handler envW reqW =
      { status := 200, ok := true, text := some ("  Hello World  ".trim), error := none } :=
  ⟨rfl, rfl, rfl,
    c1_valid_pdf_returns_trimmed_text envW reqW "http://x/doc.pdf"
      ⟨200, Except.ok pdfBytes⟩ pdfBytes "  Hello World  " rfl rfl rfl rfl rfl⟩

/-- C2: for every request from which no fileURL is obtained from the query
string or the body, the handler responds 400 with the missing-parameter
error and no outbound fetch is attempted. -/
theorem c2_missing_fileURL_no_fetch (env : Env) (req : Request)
    (hq : req.queryFileURL = none)
    (hb : req.bodyPresent = false ∨ req.bodyFileURL = none) :
    handlerRun env req =
      { response := { status := 400, ok := false, text := none,
                      error := some "Missing fileURL parameter" },
        fetchAttempted := false } := by
  have hmiss : usedFileURL req = none := by
    unfold usedFileURL fileURLVal JSVal.jsOr JSVal.ofOption
    rw [hq]
    cases hb with
    | inl h => simp [h, JSVal.truthy]
    | inr h => cases hbp : req.bodyPresent <;> simp [h, JSVal.truthy]
  rw [handlerRun_of_missing hmiss]
  rfl

/-- Witness for C2 at a concrete request and environment. -/
theorem c2_missing_fileURL_no_fetch_witness :
    reqNone.queryFileURL = none ∧
    handlerRun envW reqNone =
      { response := { status := 400, ok := false, text := none,
                      error := some "Missing fileURL parameter" },
        fetchAttempted := false } :=
  ⟨rfl, c2_missing_fileURL_no_fetch envW reqNone rfl (Or.inl rfl)⟩

/-- C3: for every request where the fetch completes with a non-success HTTP
status (response not ok), the handler responds 400 with the one fixed
unable-to-fetch message, whatever the status was. -/
theorem c3_fetch_not_ok_fixed_message (env : Env) (req : Request) (u : String)
    (resp : FetchResponse)
    (hu : usedFileURL req = some u)
    (hf : env.fetch u = Except.ok resp)
    (hok : resp.respOk = false) :
    handler env req =
      { status := 400, ok := false, text := none,
        error := some "Unable to fetch file from provided URL" } := by
  unfold handler
  rw [handlerRun_of_used hu]
  unfold afterFetch
  rw [hf]
  simp [hok, unfetchableResponse]

/-- Witness for C3 at a concrete request and a 404-answering environment. -/
theorem c3_fetch_not_ok_fixed_message_witness :
    env404.fetch "http://x/doc.pdf" = Except.ok ⟨404, Except.ok []⟩ ∧
    handler env404 reqW =
      { status := 400, ok := false, text := none,
        error := some "Unable to fetch file from provided URL" } :=
  ⟨rfl, c3_fetch_not_ok_fixed_message env404 reqW "http://x/doc.pdf"
    ⟨404, Except.ok []⟩ rfl rfl rfl⟩

/-- C4 counterexample: in an environment where the fetch throws, as a DNS
resolution failure does, the handler answers 500, not 400, so not every
upstream-fetch failure collapses to the fixed 400 message. -/
theorem c4_counterexample_dns_failure_gives_500 :
    usedFileURL reqW = some "http://x/doc.pdf" ∧
    (∃ e : Exn, envDNS.fetch "http://x/doc.pdf" = Except.error e) ∧
    (handler envDNS reqW).status = 500 ∧
    ¬((handler envDNS reqW).status = 400) :=
  ⟨rfl, ⟨_, rfl⟩, rfl, by decide⟩

/-- C4 amended: upstream failures that yield an HTTP response with a
non-success status all collapse to status 400 with the single fixed message,
but network-level failures that make the fetch throw (such as DNS errors)
instead produce status 500 carrying the fault's rendered message. -/
theorem c4_amended_fetch_failure_split (env : Env) (req : Request) (u : String)
    (hu : usedFileURL req = some u) :
    (∀ resp : FetchResponse, env.fetch u = Except.ok resp → resp.respOk = false →
      handler env req =
        { status := 400, ok := false, text := none,
          error := some "Unable to fetch file from provided URL" }) ∧
    (∀ e : Exn, env.fetch u = Except.error e →
      handler env req =
        { status := 500, ok := false, text := none, error := some e.render }) := by
  constructor
  · intro resp hf hok
    unfold handler
    rw [handlerRun_of_used hu]
    unfold afterFetch
    rw [hf]
    simp [hok, unfetchableResponse]
  · intro e hf
    unfold handler
    rw [handlerRun_of_used hu]
    unfold afterFetch
    rw [hf]
    rfl

/-- Witness for the amended C4: both branches at concrete environments. -/
theorem c4_amended_fetch_failure_split_witness :
    handler env404 reqW =
      { status := 400, ok := false, text := none,
        error := some "Unable to fetch file from provided URL" } ∧
    handler envDNS reqW =
      { status := 500, ok := false, text := none,
        error := some "getaddrinfo ENOTFOUND example.invalid" } :=
  ⟨(c4_amended_fetch_failure_split env404 reqW "http://x/doc.pdf" rfl).1
      ⟨404, Except.ok []⟩ rfl rfl,
   (c4_amended_fetch_failure_split envDNS reqW "http://x/doc.pdf" rfl).2
      ⟨some "getaddrinfo ENOTFOUND example.invalid",
       "FetchError: getaddrinfo ENOTFOUND example.invalid"⟩ rfl⟩

/-- C5: whenever the fetch throws, body buffering throws, or PDF parsing
throws, the handler responds 500 with the fault's rendered message, which is
the fault's message when one is present and nonempty and otherwise its
generic stringification. -/
theorem c5_thrown_fault_gives_500 (env : Env) (req : Request) (u : String) (e : Exn)
    (hu : usedFileURL req = some u)
    (hthrow : env.fetch u = Except.error e
      ∨ (∃ resp : FetchResponse, env.fetch u = Except.ok resp ∧ resp.respOk = true ∧
          resp.bytes = Except.error e)
      ∨ (∃ resp : FetchResponse, ∃ buf : List Nat, env.fetch u = Except.ok resp ∧
          resp.respOk = true ∧ resp.bytes = Except.ok buf ∧
          env.parse buf = Except.error e)) :
    handler env req = { status := 500, ok := false, text := none, error := some e.render }
      ∧ (∀ m : String, e.message = some m → m ≠ "" → e.render = m)
      ∧ (e.message = none → e.render = e.str) := by
  refine ⟨?_, ?_, ?_⟩
  · unfold handler
    rw [handlerRun_of_used hu]
    unfold afterFetch
    rcases hthrow with hf | ⟨resp, hf, hok, hb⟩ | ⟨resp, buf, hf, hok, hb, hp⟩
    · rw [hf]
      rfl
    · rw [hf]
      simp [hok, hb, serverErrorResponse]
    · rw [hf]
      simp [hok, hb, hp, serverErrorResponse]
  · intro m hm hne
    unfold Exn.render
    rw [hm]
    simp [hne]
  · intro hm
    unfold Exn.render
    rw [hm]

/-- Witness for C5: a parse failure on non-PDF bytes, via envW. -/
theorem c5_thrown_fault_gives_500_witness :
    envW.fetch "http://x/doc.pdf" = Except.ok ⟨200, Except.ok pdfBytes⟩ ∧
    envW.parse [0] = Except.error ⟨some "Invalid PDF structure", "Error: Invalid PDF structure"⟩ ∧
    handler envW2 reqW =
      { status := 500, ok := false, text := none, error := some "Invalid PDF structure" } :=
  ⟨rfl, rfl,
    (c5_thrown_fault_gives_500 envW2 reqW "http://x/doc.pdf"
      ⟨some "Invalid PDF structure", "Error: Invalid PDF structure"⟩ rfl
      (Or.inr (Or.inr ⟨⟨200, Except.ok [0]⟩, [0], rfl, rfl, rfl, rfl⟩))).1⟩

/-- C6: a fetched PDF that parses but yields no text field gives status 200
with ok true and empty text; absent text is not an error. -/
theorem c6_no_text_gives_200_empty (env : Env) (req : Request) (u : String)
    (resp : FetchResponse) (buf : List Nat)
    (hu : usedFileURL req = some u)
    (hf : env.fetch u = Except.ok resp)
    (hok : resp.respOk = true)
    (hb : resp.bytes = Except.ok buf)
    (hp : env.parse buf = Except.ok none) :
    handler env req = { status := 200, ok := true, text := some "", error := none } := by
  unfold handler
  rw [handlerRun_of_used hu]
  unfold afterFetch
  rw [hf]
  simp [hok, hb, hp, successResponse, extractedText]

/-- Witness for C6 at a concrete request and a no-text environment. -/
theorem c6_no_text_gives_200_empty_witness :
    envNoText.parse pdfBytes = Except.ok none ∧
    handler envNoText reqW = { status := 200, ok := true, text := some "", error := none } :=
  ⟨rfl, c6_no_text_gives_200_empty envNoText reqW "http://x/doc.pdf"
    ⟨200, Except.ok pdfBytes⟩ pdfBytes rfl rfl rfl rfl rfl⟩

/-- C7 counterexample: with an empty query fileURL and a nonempty body
fileURL, the query parameter is present yet the handler uses the body value;
the fetched and parsed document is the one at the body URL. -/
theorem c7_counterexample_empty_query_falls_through :
    reqC7.queryFileURL = some "" ∧
    ¬(usedFileURL reqC7 = some "") ∧
    usedFileURL reqC7 = some "http://body/doc.pdf" ∧
    handler envBody reqC7 =
      { status := 200, ok := true, text := some ("body".trim), error := none } :=
  ⟨rfl, by decide, rfl, rfl⟩

/-- C7 amended: the fileURL used is the query parameter's value whenever the
query parameter is present and nonempty; when the query parameter is absent
or empty, the body's fileURL field is used instead (when the body is present
and the field is nonempty). -/
theorem c7_amended_fileURL_selection (req : Request) :
    (∀ s : String, req.queryFileURL = some s → s ≠ "" → usedFileURL req = some s) ∧
    ((req.queryFileURL = none ∨ req.queryFileURL = some "") →
      req.bodyPresent = true →
      ∀ t : String, req.bodyFileURL = some t → t ≠ "" → usedFileURL req = some t) := by
  constructor
  · intro s hq hs
    unfold usedFileURL fileURLVal JSVal.jsOr JSVal.ofOption
    rw [hq]
    simp [JSVal.truthy, hs]
  · intro hq hbp t hb ht
    unfold usedFileURL fileURLVal JSVal.jsOr JSVal.ofOption
    rw [hbp, hb]
    cases hq with
    | inl h => rw [h]; simp [JSVal.truthy, ht]
    | inr h => rw [h]; simp [JSVal.truthy, ht]

/-- Witness for the amended C7: both selection rules at concrete requests. -/
theorem c7_amended_fileURL_selection_witness :
    usedFileURL reqW = some "http://x/doc.pdf" ∧
    usedFileURL reqC7 = some "http://body/doc.pdf" :=
  ⟨(c7_amended_fileURL_selection reqW).1 "http://x/doc.pdf" rfl (by decide),
   (c7_amended_fileURL_selection reqC7).2 (Or.inr rfl) rfl "http://body/doc.pdf" rfl (by decide)⟩

/-- Every handler invocation produces one of the four literal responses. -/
theorem handler_cases (env : Env) (req : Request) :
    handler env req = missingResponse ∨ handler env req = unfetchableResponse ∨
    (∃ e : Exn, handler env req = serverErrorResponse e) ∨
    (∃ t : String, handler env req = successResponse t) := by
  cases hu : usedFileURL req with
  | none =>
    left
    unfold handler
    rw [handlerRun_of_missing hu]
  | some u =>
    unfold handler
    rw [handlerRun_of_used hu]
    show afterFetch env u = missingResponse ∨ afterFetch env u = unfetchableResponse ∨
      (∃ e : Exn, afterFetch env u = serverErrorResponse e) ∨
      (∃ t : String, afterFetch env u = successResponse t)
    unfold afterFetch
    cases hfr : env.fetch u with
    | error e => exact Or.inr (Or.inr (Or.inl ⟨e, by rfl⟩))
    | ok resp =>
      by_cases hok : resp.respOk = false
      · refine Or.inr (Or.inl ?_)
        simp [hok]
      · cases hb : resp.bytes with
        | error e =>
          refine Or.inr (Or.inr (Or.inl ⟨e, ?_⟩))
          simp [hok, hb, serverErrorResponse]
        | ok buf =>
          cases hp : env.parse buf with
          | error e =>
            refine Or.inr (Or.inr (Or.inl ⟨e, ?_⟩))
            simp [hok, hb, hp, serverErrorResponse]
          | ok t =>
            refine Or.inr (Or.inr (Or.inr ⟨extractedText t, ?_⟩))
            simp [hok, hb, hp, successResponse]

/-- C8: every invocation yields exactly one JSON response of one of three
shapes: 200 with ok true and a text field and no error field, or 400 or 500
with ok false and an error field and no text field; ok holds exactly when the
status is 200, and no response carries both text and error. -/
theorem c8_single_response_three_shapes (env : Env) (req : Request) :
    (((handler env req).status = 200 ∧ (handler env req).ok = true ∧
        (∃ t : String, (handler env req).text = some t) ∧ (handler env req).error = none)
      ∨ (((handler env req).status = 400 ∨ (handler env req).status = 500) ∧
          (handler env req).ok = false ∧ (handler env req).text = none ∧
          (∃ m : String, (handler env req).error = some m)))
    ∧ ((handler env req).ok = true ↔ (handler env req).status = 200)
    ∧ ¬(¬((handler env req).text = none) ∧ ¬((handler env req).error = none)) := by
  rcases handler_cases env req with h | h | ⟨e, h⟩ | ⟨t, h⟩ <;> rw [h]
  · exact ⟨Or.inr ⟨Or.inl rfl, rfl, rfl, ⟨_, rfl⟩⟩, by simp [missingResponse],
      by simp [missingResponse]⟩
  · exact ⟨Or.inr ⟨Or.inl rfl, rfl, rfl, ⟨_, rfl⟩⟩, by simp [unfetchableResponse],
      by simp [unfetchableResponse]⟩
  · exact ⟨Or.inr ⟨Or.inr rfl, rfl, rfl, ⟨_, rfl⟩⟩, by simp [serverErrorResponse],
      by simp [serverErrorResponse]⟩
  · exact ⟨Or.inl ⟨rfl, rfl, ⟨_, rfl⟩, rfl⟩, by simp [successResponse],
      by simp [successResponse]⟩

/-- C9: the handler is deterministic: two invocations on the same request
with collaborators that behave identically produce identical responses. -/
theorem c9_deterministic (env₁ env₂ : Env) (req : Request)
    (hf : ∀ u : String, env₁.fetch u = env₂.fetch u)
    (hp : ∀ b : List Nat, env₁.parse b = env₂.parse b) :
    handler env₁ req = handler env₂ req := by
  unfold handler handlerRun afterFetch
  simp only [hf, hp]

/-- Witness for C9 at a concrete environment and request. -/
theorem c9_deterministic_witness :
    handler envW reqW = handler envW reqW :=
  c9_deterministic envW envW reqW (fun _ => rfl) (fun _ => rfl)

/-- C10: a fileURL present but equal to the empty string in whichever
sources supply it is treated as missing: 400 with the missing-parameter
error and no fetch attempted. -/
theorem c10_empty_fileURL_treated_missing (env : Env) (req : Request)
    (hq : ∀ s : String, req.queryFileURL = some s → s = "")
    (hb : ∀ s : String, req.bodyFileURL = some s → s = "")
    (hpresent : req.queryFileURL = some "" ∨ req.bodyFileURL = some "") :
    handlerRun env req =
      { response := { status := 400, ok := false, text := none,
                      error := some "Missing fileURL parameter" },
        fetchAttempted := false } := by
  have hmiss : usedFileURL req = none := by
    unfold usedFileURL fileURLVal JSVal.jsOr JSVal.ofOption
    cases hq' : req.queryFileURL with
    | some s =>
      have hs := hq s hq'
      cases hb' : req.bodyFileURL with
      | some t =>
        have ht := hb t hb'
        cases hbp : req.bodyPresent <;> simp [hs, ht, JSVal.truthy]
      | none =>
        cases hbp : req.bodyPresent <;> simp [hs, JSVal.truthy]
    | none =>
      cases hb' : req.bodyFileURL with
      | some t =>
        have ht := hb t hb'
        cases hbp : req.bodyPresent <;> simp [ht, JSVal.truthy]
      | none =>
        cases hbp : req.bodyPresent <;> simp [JSVal.truthy]
  rw [handlerRun_of_missing hmiss]
  rfl

/-- Witness for C10 at a request whose fileURL is empty in both sources. -/
theorem c10_empty_fileURL_treated_missing_witness :
    reqEmpty.queryFileURL = some "" ∧ reqEmpty.bodyFileURL = some "" ∧
    handlerRun envW reqEmpty =
      { response := { status := 400, ok := false, text := none,
                      error := some "Missing fileURL parameter" },
        fetchAttempted := false } :=
  ⟨rfl, rfl,
    c10_empty_fileURL_treated_missing envW reqEmpty
      (fun s h => (Option.some.inj h).symm)
      (fun s h => (Option.some.inj h).symm)
      (Or.inl rfl)⟩

end OcrSummarize
